import Mathlib

/-!
Shallow embedding of the approval/control core of the
Cofounder-Labs/interactive-browser-use repository
(src/browser_agent/agent.py and src/browser_agent/web/routes.py),
together with theorems that settle the specification claims.

Python machinery is embedded as follows: the mutable attributes of
`BrowserAgent` become the fields of `AgentState`; the per-task dictionary
entry of `active_tasks` in routes.py becomes `TaskState`; exceptions become
`Except` / `Option String`; awaiting the approval `asyncio.Event` is
modelled by passing the external decision step (the state transformer run
by the approving actor while the interceptor is parked on the event) as a
function argument.  The event log: the agent forwards every event through
its `on_event` callback into `active_tasks[task_id]["events"]`, the same
list the route handlers append to, so the model keeps one log, stored in
`AgentState.events`.
-/

namespace BrowserAgentModel

/-- Opaque action payload proposed by the engine (the `ActionModel` objects
that browser-use hands to `multi_act`); its structure is irrelevant to the
control core, so it is a bare label. -/
abbrev Action := Nat

/-- Result of executing a single action, as consumed by the interceptor:
`single_result[0].is_done or single_result[0].error` (agent.py line 427).
`error` is `Optional[str]` in the library. -/
structure ActionResult where
  is_done : Bool
  error : Option String
deriving DecidableEq, Repr

/-- Python truthiness of the `Optional[str]` field `error`: `None` and the
empty string are falsy, any other string is truthy. -/
def errTruthy : Option String → Bool
  | none => false
  | some s => !(s == "")

/-- Events emitted into the per-task log.  Constructors mirror the `type`
tags produced by `BrowserAgent._handle_event` and by the route handlers;
`action_approval_needed` carries the published data used by the claims:
`index + 1`, `total`, and the batch `next_goal` (agent.py lines 127-147). -/
inductive Ev where
  | step_started
  | action_approval_needed (index total : Nat) (nextGoal : Option String)
  | action_rejected
  | action_approved
  | planner_updated
  | user_action (msg : String)
  | info (msg : String)
  | error (msg : String)
deriving DecidableEq, Repr

/-- The PendingAction record published for the approver: the `action_data`
dictionary built in `on_action_start` (agent.py lines 127-136).  The
browser-context fields (`url`, `step_number`) come from an excluded
external collaborator and are not modelled. -/
structure ActionData where
  action : Action
  index : Nat
  total : Nat
  next_goal : Option String
deriving DecidableEq, Repr

/-- The mutable state of one `BrowserAgent` (agent.py `__init__`, lines
27-48), restricted to the fields the claims are about.  `agentRef` and
`browserRef` model whether `self.agent` / `self.browser` are non-None;
`agentPaused` models the underlying engine having received `pause()`;
`gateSet` models `action_approval_event.is_set()`. -/
structure AgentState where
  pending_approval : Bool
  approved : Bool
  rejected : Bool
  agentPaused : Bool
  gateSet : Bool
  current_action_index : Nat
  current_actions : Option ActionData
  current_batch_next_goal : Option String
  current_model_output : Option String
  agentRef : Bool
  browserRef : Bool
  events : List Ev
deriving DecidableEq, Repr

/-- The state built by `BrowserAgent.__init__` (agent.py lines 27-48). -/
def initialAgentState : AgentState :=
  { pending_approval := false
    approved := false
    rejected := false
    agentPaused := false
    gateSet := false
    current_action_index := 0
    current_actions := none
    current_batch_next_goal := none
    current_model_output := none
    agentRef := false
    browserRef := false
    events := [] }

/-- First half of `on_action_start` (agent.py lines 110-153): build and
publish the action data, flag the pending approval, emit the
`action_approval_needed` event, then clear the gate and reset the
decision flags - everything executed before `action_approval_event.wait()`. -/
def onActionStartPublish (st : AgentState) (a : Action) (index total : Nat) :
    AgentState :=
  let data : ActionData :=
    { action := a, index := index + 1, total := total
      next_goal := st.current_batch_next_goal }
  { st with
    pending_approval := true
    current_action_index := index
    current_actions := some data
    events := st.events ++ [.action_approval_needed (index + 1) total
                              st.current_batch_next_goal]
    gateSet := false
    approved := false
    rejected := false }

/-- Second half of `on_action_start` (agent.py lines 157-174): after the
gate releases, pause the engine and emit `action_rejected` when the
decision was a rejection, otherwise emit `action_approved`; in both cases
clear `pending_approval`. -/
def onActionStartResume (st : AgentState) : AgentState :=
  let st1 :=
    if st.rejected then
      { st with agentPaused := true
                events := st.events ++ [Ev.action_rejected] }
    else
      { st with events := st.events ++ [Ev.action_approved] }
  { st1 with pending_approval := false }

/-- `BrowserAgent.approve_action` (agent.py lines 176-184): fails without a
pending approval; otherwise records the approval and signals the gate. -/
def approve_action (st : AgentState) : Bool × AgentState :=
  if st.pending_approval then
    (true, { st with approved := true, rejected := false, gateSet := true })
  else
    (false, st)

/-- `BrowserAgent.reject_action` (agent.py lines 186-194): fails without a
pending approval; otherwise records the rejection and signals the gate. -/
def reject_action (st : AgentState) : Bool × AgentState :=
  if st.pending_approval then
    (true, { st with approved := false, rejected := true, gateSet := true })
  else
    (false, st)

/-- The two decisions an external approver can take while the interceptor
is parked on the approval gate. -/
inductive Decision where
  | approve
  | reject
deriving DecidableEq, Repr

/-- The state transformation the external actor performs while the
interceptor awaits the gate: exactly the corresponding agent method. -/
def applyDecision : Decision → AgentState → AgentState
  | .approve, st => (approve_action st).2
  | .reject, st => (reject_action st).2

/-- Head-of-batch terminal test used by the interceptor loop:
`single_result and (single_result[0].is_done or single_result[0].error)`
(agent.py lines 424-428); an empty result list is neither recorded nor
terminal. -/
def batchTerminal : List ActionResult → Bool
  | [] => false
  | r :: _ => r.is_done || errTruthy r.error

/-- The execution loop of `wrapped_multi_act` (agent.py lines 420-428):
run each action through the underlying primitive `execOne`
(`original_multi_act([action])`), collecting the results and the actions
actually dispatched, and break after the first action whose first result
is done or errored. -/
def execLoop (execOne : Action → List ActionResult) :
    List Action → List ActionResult × List Action
  | [] => ([], [])
  | a :: rest =>
    let r := execOne a
    if batchTerminal r then
      (r, [a])
    else
      let p := execLoop execOne rest
      (r ++ p.1, a :: p.2)

/-- Outcome of one `wrapped_multi_act` call: the returned result list, the
actions dispatched to the underlying primitive in order, the number of
times the call parked on the approval gate, and the final agent state. -/
structure MultiActResult where
  results : List ActionResult
  executed : List Action
  gateWaits : Nat
  state : AgentState
deriving Repr

/-- `wrapped_multi_act` (agent.py lines 397-433).  A non-empty batch
publishes the approval request for its first action only
(`on_action_start(actions[0], 0, len(actions))`), parks once on the gate -
during which the external actor runs `decide` - and on rejection returns
`[]` immediately (skipping the trailing cleanup); on approval it executes
the whole batch with early termination and then clears
`current_batch_next_goal` and `current_model_output`.  An empty batch
skips the approval block entirely but still runs the cleanup. -/
def wrapped_multi_act (execOne : Action → List ActionResult)
    (decide : AgentState → AgentState) (st : AgentState)
    (actions : List Action) : MultiActResult :=
  match actions with
  | [] =>
    { results := []
      executed := []
      gateWaits := 0
      state := { st with current_batch_next_goal := none
                         current_model_output := none } }
  | a :: rest =>
    let st1 := onActionStartPublish st a 0 (a :: rest).length
    let st2 := onActionStartResume (decide st1)
    if st2.rejected then
      { results := [], executed := [], gateWaits := 1, state := st2 }
    else
      let p := execLoop execOne (a :: rest)
      { results := p.1
        executed := p.2
        gateWaits := 1
        state := { st2 with current_batch_next_goal := none
                            current_model_output := none } }

/-- Events appended to the log between two observations of the agent. -/
def emittedEvents (before after : AgentState) : List Ev :=
  after.events.drop before.events.length

/-- Specification-side description of the early-halt behaviour: the prefix
of the batch up to and including the first action whose execution reports
a terminal result. -/
def takeThroughTerminal (p : Action → Bool) : List Action → List Action
  | [] => []
  | a :: rest =>
    if p a then [a] else a :: takeThroughTerminal p rest

/-- An action is terminal for a given primitive when its first reported
result is done or errored. -/
def terminalAction (execOne : Action → List ActionResult) (a : Action) : Bool :=
  batchTerminal (execOne a)

/-- Task status strings stored in `active_tasks[task_id]["status"]`
(routes.py). -/
inductive Status where
  | created
  | running
  | paused
  | completed
  | failed
  | stopped
deriving DecidableEq, Repr

/-- The externally managed shared resources: the Chrome instance launched
at startup with remote debugging, to which `get_browser_instance`
(utils/chrome.py) connects every task. -/
structure World where
  browserRunning : Bool
deriving DecidableEq, Repr

/-- Closing the shared Chrome instance - an operation the external library
offers but which, per the source, the control core never invokes. -/
def closeSharedBrowser (w : World) : World :=
  { w with browserRunning := false }

/-- One entry of `active_tasks` (routes.py line 64): the agent, the task
description and the status string; the event list lives in
`AgentState.events` (see the module docstring). -/
structure TaskState where
  description : String
  status : Status
  agent : AgentState
deriving DecidableEq, Repr

/-- The `ApprovalResponse` model returned by the approve/reject endpoints
(routes.py lines 48-50). -/
structure ApprovalResponse where
  success : Bool
  message : String
deriving DecidableEq, Repr

/-- The `TaskInfo` response model (routes.py lines 29-33), restricted to
the status and message consumed by the claims. -/
structure TaskInfo where
  status : Status
  message : String
deriving DecidableEq, Repr

/-- `approve_action` endpoint (routes.py lines 390-413): refuse when the
task is not running; otherwise delegate to the agent and, on success,
record the user action in the event log. -/
def approve_action_route (ts : TaskState) : ApprovalResponse × TaskState :=
  if ts.status ≠ Status.running then
    ({ success := false
       message := "Task is not running and cannot be approved" }, ts)
  else
    let p := approve_action ts.agent
    if p.1 then
      ({ success := true, message := "Action approved successfully" },
       { ts with agent :=
          { p.2 with events :=
              p.2.events ++ [Ev.user_action "User approved the action"] } })
    else
      ({ success := false, message := "No action is pending approval" },
       { ts with agent := p.2 })

/-- `reject_action` endpoint (routes.py lines 416-440): refuse when the
task is not running; otherwise delegate to the agent and, on success, set
the status to paused and record the user action. -/
def reject_action_route (ts : TaskState) : ApprovalResponse × TaskState :=
  if ts.status ≠ Status.running then
    ({ success := false
       message := "Task is not running and cannot be rejected" }, ts)
  else
    let p := reject_action ts.agent
    if p.1 then
      ({ success := true, message := "Action rejected, agent paused" },
       { ts with status := Status.paused
                 agent :=
          { p.2 with events :=
              p.2.events ++
                [Ev.user_action "User rejected the action, agent paused"] } })
    else
      ({ success := false, message := "No action is pending approval" },
       { ts with agent := p.2 })

/-- `BrowserAgent.stop` (agent.py lines 461-468): set `self.agent` and
`self.browser` to None and nothing else; the shared browser instance is
deliberately not closed.  The body only assigns attributes, so it cannot
raise. -/
def agentStop (w : World) (st : AgentState) : World × AgentState :=
  (w, { st with agentRef := false, browserRef := false })

/-- `stop_task` endpoint (routes.py lines 176-206): a task already in a
terminal state is returned unchanged with its current status; otherwise
the agent is stopped, the status becomes stopped and a stop event is
recorded.  The response is wrapped in `Except` to represent the HTTP
error channel; since `agentStop` is total, the 500 branch of the source
(reachable only if `agent.stop()` raised) never fires and every call
returns `Except.ok`. -/
def stop_task (w : World) (ts : TaskState) :
    Except String TaskInfo × World × TaskState :=
  if ts.status = Status.stopped ∨ ts.status = Status.completed ∨
      ts.status = Status.failed then
    (Except.ok { status := ts.status, message := "Task was already inactive." },
     w, ts)
  else
    let p := agentStop w ts.agent
    let ag := { p.2 with events :=
                  p.2.events ++ [Ev.info "Task stopped by user request."] }
    (Except.ok { status := Status.stopped
                 message := "Task stopped successfully." },
     p.1, { ts with status := Status.stopped, agent := ag })

/-- The three environment variables consulted by `BrowserAgent.start`
(agent.py lines 237-254); `none` means unset. -/
structure Env where
  azureEndpoint : Option String
  azureOpenaiApiKey : Option String
  openaiApiKey : Option String
deriving DecidableEq, Repr

/-- Python truthiness of `os.getenv(...)`: unset and empty are falsy. -/
def envTruthy : Option String → Bool
  | none => false
  | some s => !(s == "")

/-- The credential profile selected for the model client. -/
inductive LLMChoice where
  | azure
  | openai
deriving DecidableEq, Repr

/-- The message of the `ValueError` raised when neither credential profile
is satisfied (agent.py line 254). -/
def missingCredsMsg : String :=
  "Either OPENAI_API_KEY or (AZURE_ENDPOINT and AZURE_OPENAI_API_KEY) environment variables are required"

/-- Credential selection at the top of `BrowserAgent.start` (agent.py
lines 237-254): Azure when both Azure variables are truthy, else OpenAI
when its key is truthy, else a `ValueError`. -/
def selectLLM (env : Env) : Except String LLMChoice :=
  if envTruthy env.azureEndpoint && envTruthy env.azureOpenaiApiKey then
    Except.ok LLMChoice.azure
  else if envTruthy env.openaiApiKey then
    Except.ok LLMChoice.openai
  else
    Except.error missingCredsMsg

/-- Outcome of the engine run performed under `asyncio.timeout(60)`
(agent.py lines 440-453); the engine is an excluded collaborator, so the
outcome is a parameter of the model. -/
inductive RunOutcome where
  | success
  | engineError (msg : String)
  | timeout
deriving DecidableEq, Repr

/-- The text of the exception that `BrowserAgent.start` propagates for a
given run outcome, as later observed via `str(e)`: an engine error keeps
its message, and the `asyncio.TimeoutError` raised by the expired
`asyncio.timeout(60)` block stringifies to the empty string (it is raised
with no arguments). -/
def runExcText : RunOutcome → Option String
  | RunOutcome.success => none
  | RunOutcome.engineError m => some m
  | RunOutcome.timeout => some ""

/-- What `BrowserAgent.start` reports: the propagated exception text, if
any, and whether the execution engine (the `Agent(...)` constructor,
agent.py line 280) was ever reached. -/
structure StartResult where
  exc : Option String
  engineConstructed : Bool
deriving DecidableEq, Repr

/-- `BrowserAgent.start` (agent.py lines 231-459): select credentials,
obtain the shared browser instance, construct the engine, run it under
the 60 second timeout, and in all cases - the `finally` block - run
`self.stop()`.  Credential and browser failures raise before the engine
is constructed. -/
def agentStart (env : Env) (browserAvail : Bool) (run : RunOutcome)
    (w : World) (st : AgentState) : StartResult × World × AgentState :=
  match selectLLM env with
  | Except.error m =>
    let p := agentStop w st
    ({ exc := some m, engineConstructed := false }, p.1, p.2)
  | Except.ok _ =>
    if browserAvail then
      let st1 := { st with agentRef := true, browserRef := true }
      let p := agentStop w st1
      ({ exc := runExcText run, engineConstructed := true }, p.1, p.2)
    else
      let p := agentStop w st
      ({ exc := some "Failed to create browser instance"
         engineConstructed := false }, p.1, p.2)

/-- `_run_agent_task` (routes.py lines 79-106): mark the task running,
drive `agent.start()` to completion, then either mark it completed (when
still running) or, on any exception, mark it failed and record
`"Task execution failed: " + str(e)` as an error event. -/
def run_agent_task (env : Env) (browserAvail : Bool) (run : RunOutcome)
    (w : World) (ts : TaskState) : World × TaskState :=
  let ts0 := { ts with status := Status.running }
  let p := agentStart env browserAvail run w ts0.agent
  let ts1 := { ts0 with agent := p.2.2 }
  match p.1.exc with
  | none =>
    if ts1.status = Status.running then
      (p.2.1, { ts1 with status := Status.completed
                         agent := { ts1.agent with events :=
                            ts1.agent.events ++
                              [Ev.info "Task completed successfully."] } })
    else
      (p.2.1, ts1)
  | some m =>
    (p.2.1, { ts1 with status := Status.failed
                       agent := { ts1.agent with events :=
                          ts1.agent.events ++
                            [Ev.error ("Task execution failed: " ++ m)] } })

/-- `create_task` endpoint (routes.py lines 110-151): allocate the agent
and register the task in `created` state; the engine run is only
scheduled as a background task.  The `except` branch (HTTP 500) fires
only if the `BrowserAgent` constructor raised, which it cannot - the
constructor merely assigns attributes and configures logging - so every
call returns `Except.ok`.  No environment variable is read here. -/
def create_task (description : String) :
    Except String (TaskInfo × TaskState) :=
  Except.ok
    ({ status := Status.created
       message := "Task created and initiated successfully." },
     { description := description
       status := Status.created
       agent := initialAgentState })

/-- Case-insensitive test that `pat` begins the list `hay`, as the
`re.IGNORECASE` flag compares pattern text (agent.py line 517). -/
def lcBeginsWith : List Char → List Char → Bool
  | [], _ => true
  | _ :: _, [] => false
  | p :: ps, h :: hs => (p.toLower == h.toLower) && lcBeginsWith ps hs

/-- Python `str.strip()` on the character-list representation. -/
def pyStrip (l : List Char) : List Char :=
  ((l.dropWhile Char.isWhitespace).reverse.dropWhile Char.isWhitespace).reverse

/-- Length of the maximal digit run at the head of the list (`\d+`). -/
def digitsLen : List Char → Nat
  | [] => 0
  | c :: rest => if c.isDigit then digitsLen rest + 1 else 0

/-- Match `\d+\.` at the head of the list, returning the consumed length:
at least one digit followed by a literal dot. -/
def numDotLen (l : List Char) : Option Nat :=
  let k := digitsLen l
  if k == 0 then none
  else
    match l.drop k with
    | '.' :: _ => some (k + 1)
    | _ => none

/-- Match the character class `[-*•]` at the head of the list. -/
def bulletLen : List Char → Option Nat
  | [] => none
  | c :: _ => if c == '-' || c == '*' || c == '•' then some 1 else none

/-- Match `Step \d+:` at the head of the list (this pattern is used
without `re.IGNORECASE`, agent.py line 547, so the match is exact). -/
def stepColonLen : List Char → Option Nat
  | 'S' :: 't' :: 'e' :: 'p' :: ' ' :: rest =>
    let k := digitsLen rest
    if k == 0 then none
    else
      match rest.drop k with
      | ':' :: _ => some (5 + k + 1)
      | _ => none
  | _ => none

/-- The lazy group `(.*?)` bounded by a lookahead: take characters until
the remaining suffix satisfies `stopP`; reaching the end of the input is
the `$`-at-end case and always stops. -/
def captureUntil (stopP : List Char → Bool) : List Char → List Char
  | [] => []
  | c :: rest =>
    if stopP (c :: rest) then [] else c :: captureUntil stopP rest

/-- One pass of `re.findall` for the step patterns of `_extract_steps`:
each pattern is an anchor match (`matchLen`), greedy `\s*`, then a lazy
capture bounded by a lookahead (`stopP`, which also recognises the
`$`-before-trailing-newline position `['\n']`).  Scanning restarts at the
end of the (zero-width) lookahead.  The fuel argument only bounds the
number of scan iterations; since every anchor match consumes at least one
character, `length + 1` iterations always suffice. -/
def reScanAux (matchLen : List Char → Option Nat) (stopP : List Char → Bool) :
    Nat → List Char → List (List Char)
  | 0, _ => []
  | _ + 1, [] => []
  | fuel + 1, c :: rest =>
    match matchLen (c :: rest) with
    | none => reScanAux matchLen stopP fuel rest
    | some k =>
      let body := ((c :: rest).drop k).dropWhile Char.isWhitespace
      let cap := captureUntil stopP body
      cap :: reScanAux matchLen stopP fuel (body.drop cap.length)

/-- `re.findall(pattern, text, re.DOTALL)` for one step pattern. -/
def reScan (matchLen : List Char → Option Nat) (stopP : List Char → Bool)
    (l : List Char) : List (List Char) :=
  reScanAux matchLen stopP (l.length + 1) l

/-- The list comprehension `[step.strip() for step in steps if
step.strip()]` (agent.py line 549). -/
def cleanSteps (steps : List (List Char)) : List (List Char) :=
  (steps.map pyStrip).filter (fun s => !s.isEmpty)

/-- `BrowserAgent._extract_steps` (agent.py lines 535-557): try the
numbered-item, bullet-item and `Step N:` patterns in that order (the
guard is on the raw `findall` result, the returned list is stripped and
filtered); then fall back to non-empty stripped lines when there are at
least two; then to the whole stripped text as a single step; then to no
steps. -/
def extract_steps (text : List Char) : List (List Char) :=
  let p1 := reScan numDotLen
    (fun l => (numDotLen l).isSome || l == ['\n']) text
  if !p1.isEmpty then cleanSteps p1
  else
    let p2 := reScan bulletLen
      (fun l => (bulletLen l).isSome || l == ['\n']) text
    if !p2.isEmpty then cleanSteps p2
    else
      let p3 := reScan stepColonLen
        (fun l => (stepColonLen l).isSome || l == ['\n']) text
      if !p3.isEmpty then cleanSteps p3
      else
        let lines := ((text.splitOn '\n').map pyStrip).filter
          (fun s => !s.isEmpty)
        if lines.length > 1 then lines
        else if !(pyStrip text).isEmpty then [pyStrip text]
        else []

/-- Find the leftmost position where one of the section headers followed
by a colon matches case-insensitively (alternatives tried in order at
each position, as `re.search` does), and return the suffix after the
matched header and colon. -/
def findSectionTail (headers : List (List Char)) : List Char → Option (List Char)
  | [] => none
  | c :: rest =>
    match headers.findSome? (fun h =>
        if lcBeginsWith (h ++ [':']) (c :: rest) then some (h.length + 1)
        else none) with
    | some n => some ((c :: rest).drop n)
    | none => findSectionTail headers rest

/-- The lazy section body `(.*?)` bounded by the lookahead on the stop
words of the pattern (or end of text), matched case-insensitively. -/
def takeUntilStopWord (stops : List (List Char)) : List Char → List Char
  | [] => []
  | c :: rest =>
    if stops.any (fun s => lcBeginsWith s (c :: rest)) then []
    else c :: takeUntilStopWord stops rest

/-- `re.search` of one section pattern of `_parse_planner_text`
(agent.py lines 507-513), returning the raw group-1 text. -/
def sectionContent (headers stops : List (List Char)) (text : List Char) :
    Option (List Char) :=
  (findSectionTail headers text).map (takeUntilStopWord stops)

/-- The structured plan dictionary built by `_parse_planner_text`
(agent.py lines 498-504). -/
structure StructuredPlan where
  state_analysis : List Char
  progress_evaluation : List Char
  challenges : List Char
  next_steps : List (List Char)
  reasoning : List Char
deriving DecidableEq, Repr

/-- `BrowserAgent._parse_planner_text` (agent.py lines 493-533): extract
each section with its pattern (headers and lookahead stop words exactly
as in the source), strip it, extract steps for the next-steps section;
when every field remains falsy, fall back to the whole stripped text as
reasoning plus steps extracted from the raw text. -/
def parse_planner_text (text : List Char) : StructuredPlan :=
  let sa := ((sectionContent
      ["state analysis".toList, "current state".toList]
      ["progress".toList, "evaluation".toList, "challenges".toList,
       "next steps".toList, "reasoning".toList] text).map pyStrip).getD []
  let pe := ((sectionContent
      ["progress".toList, "evaluation".toList]
      ["state".toList, "challenges".toList, "next steps".toList,
       "reasoning".toList] text).map pyStrip).getD []
  let ch := ((sectionContent
      ["challenges".toList]
      ["state".toList, "progress".toList, "evaluation".toList,
       "next steps".toList, "reasoning".toList] text).map pyStrip).getD []
  let ns :=
    match sectionContent
      ["next steps".toList]
      ["state".toList, "progress".toList, "evaluation".toList,
       "challenges".toList, "reasoning".toList] text with
    | some c => extract_steps (pyStrip c)
    | none => []
  let rs := ((sectionContent
      ["reasoning".toList]
      ["state".toList, "progress".toList, "evaluation".toList,
       "challenges".toList, "next steps".toList] text).map pyStrip).getD []
  if sa.isEmpty && pe.isEmpty && ch.isEmpty && ns.isEmpty && rs.isEmpty then
    { state_analysis := sa, progress_evaluation := pe, challenges := ch
      next_steps := extract_steps text, reasoning := pyStrip text }
  else
    { state_analysis := sa, progress_evaluation := pe, challenges := ch
      next_steps := ns, reasoning := rs }

/-- A single-action primitive whose every action succeeds without
finishing the task: used for the concrete scenarios below. -/
def okExec : Action → List ActionResult :=
  fun _ => [{ is_done := false, error := none }]

/-- A world with the shared Chrome instance running. -/
def w0 : World :=
  { browserRunning := true }

/-- An environment satisfying the OpenAI credential profile. -/
def openaiEnv : Env :=
  { azureEndpoint := none, azureOpenaiApiKey := none
    openaiApiKey := some "k" }

/-- An environment satisfying neither credential profile. -/
def noCredEnv : Env :=
  { azureEndpoint := none, azureOpenaiApiKey := none, openaiApiKey := none }

/-- A freshly created task, as `create_task` registers it. -/
def freshTask : TaskState :=
  { description := "t", status := Status.created, agent := initialAgentState }

/-- A running task with no pending approval. -/
def runningTask : TaskState :=
  { description := "t", status := Status.running, agent := initialAgentState }

/-- An agent state carrying a batch goal, for the cleanup scenarios. -/
def goalAgentState : AgentState :=
  { initialAgentState with current_batch_next_goal := some "g" }

theorem drop_len_append (a b : List Ev) : (a ++ b).drop a.length = b := by
  simp

theorem execLoop_executed (execOne : Action → List ActionResult) :
    ∀ l : List Action,
      (execLoop execOne l).2 = takeThroughTerminal (terminalAction execOne) l
  | [] => rfl
  | a :: rest => by
    simp only [execLoop, takeThroughTerminal, terminalAction]
    by_cases h : batchTerminal (execOne a)
    · simp [h]
    · simp [h, execLoop_executed execOne rest]

theorem execLoop_results (execOne : Action → List ActionResult) :
    ∀ l : List Action,
      (execLoop execOne l).1 = ((execLoop execOne l).2.map execOne).flatten
  | [] => rfl
  | a :: rest => by
    simp only [execLoop]
    by_cases h : batchTerminal (execOne a)
    · simp [h]
    · simp [h, execLoop_results execOne rest]

/-- C10: on an empty batch, `wrapped_multi_act` returns an empty result
list at once: no action is dispatched, nothing is published (the event
log and the PendingAction slot are untouched), `pending_approval` and the
decision flags are untouched, and the approval gate is never awaited. -/
theorem wrappedMultiAct_empty_batch (execOne : Action → List ActionResult)
    (dec : AgentState → AgentState) (st : AgentState) :
    (wrapped_multi_act execOne dec st []).results = []
    ∧ (wrapped_multi_act execOne dec st []).executed = []
    ∧ (wrapped_multi_act execOne dec st []).gateWaits = 0
    ∧ (wrapped_multi_act execOne dec st []).state.events = st.events
    ∧ (wrapped_multi_act execOne dec st []).state.current_actions
        = st.current_actions
    ∧ (wrapped_multi_act execOne dec st []).state.pending_approval
        = st.pending_approval
    ∧ (wrapped_multi_act execOne dec st []).state.approved = st.approved
    ∧ (wrapped_multi_act execOne dec st []).state.rejected = st.rejected := by
  exact ⟨rfl, rfl, rfl, rfl, rfl, rfl, rfl, rfl⟩

/-- C1: per-batch approval (Policy B).  For every non-empty batch of `N`
actions, exactly one `PendingAction` is published - for the first action,
with index `1` and total `N` - and the gate is awaited exactly once.  On
approval all `N` actions run in sequence through the single-action
primitive with no further prompt, halting after the first action whose
result reports done or error; on rejection nothing runs and the result
list is empty. -/
theorem wrappedMultiAct_per_batch_approval
    (execOne : Action → List ActionResult) (st : AgentState)
    (actions : List Action) (h : actions ≠ []) :
    (emittedEvents st
        (wrapped_multi_act execOne (applyDecision Decision.approve) st
          actions).state
      = [Ev.action_approval_needed 1 actions.length st.current_batch_next_goal,
         Ev.action_approved]
     ∧ (wrapped_multi_act execOne (applyDecision Decision.approve) st
          actions).gateWaits = 1
     ∧ (wrapped_multi_act execOne (applyDecision Decision.approve) st
          actions).executed
         = takeThroughTerminal (terminalAction execOne) actions
     ∧ (wrapped_multi_act execOne (applyDecision Decision.approve) st
          actions).results
         = ((wrapped_multi_act execOne (applyDecision Decision.approve) st
              actions).executed.map execOne).flatten)
    ∧ ((wrapped_multi_act execOne (applyDecision Decision.reject) st
          actions).executed = []
       ∧ (wrapped_multi_act execOne (applyDecision Decision.reject) st
            actions).results = []
       ∧ (wrapped_multi_act execOne (applyDecision Decision.reject) st
            actions).gateWaits = 1
       ∧ emittedEvents st
           (wrapped_multi_act execOne (applyDecision Decision.reject) st
             actions).state
         = [Ev.action_approval_needed 1 actions.length
              st.current_batch_next_goal,
            Ev.action_rejected]) := by
  obtain ⟨a, rest, rfl⟩ : ∃ a rest, actions = a :: rest := by
    cases actions with
    | nil => exact absurd rfl h
    | cons a rest => exact ⟨a, rest, rfl⟩
  constructor
  · refine ⟨?_, rfl, ?_, ?_⟩
    · simp [wrapped_multi_act, onActionStartPublish, applyDecision,
        approve_action, onActionStartResume, emittedEvents,
        List.append_assoc, drop_len_append]
    · simpa [wrapped_multi_act, onActionStartPublish, applyDecision,
        approve_action, onActionStartResume] using
        execLoop_executed execOne (a :: rest)
    · simpa [wrapped_multi_act, onActionStartPublish, applyDecision,
        approve_action, onActionStartResume] using
        execLoop_results execOne (a :: rest)
  · refine ⟨rfl, rfl, rfl, ?_⟩
    simp [wrapped_multi_act, onActionStartPublish, applyDecision,
      reject_action, onActionStartResume, emittedEvents,
      List.append_assoc, drop_len_append]

/-- C1 witness: the per-batch approval theorem applied to a concrete
one-action batch. -/
theorem wrappedMultiAct_per_batch_approval_witness :
    ([0] : List Action) ≠ []
    ∧ emittedEvents initialAgentState
        (wrapped_multi_act okExec (applyDecision Decision.approve)
          initialAgentState [0]).state
      = [Ev.action_approval_needed 1 1 none, Ev.action_approved] := by
  refine ⟨by decide, ?_⟩
  exact (wrappedMultiAct_per_batch_approval okExec initialAgentState [0]
    (by decide)).1.1

theorem approve_route_no_pending (ts : TaskState)
    (h : ts.agent.pending_approval = false) :
    (approve_action_route ts).1.success = false
    ∧ (approve_action_route ts).2 = ts := by
  obtain ⟨d, s, ag⟩ := ts
  simp only at h
  by_cases hs : s = Status.running
  · subst hs
    simp [approve_action_route, approve_action, h]
  · simp [approve_action_route, hs]

theorem reject_route_no_pending (ts : TaskState)
    (h : ts.agent.pending_approval = false) :
    (reject_action_route ts).1.success = false
    ∧ (reject_action_route ts).2 = ts := by
  obtain ⟨d, s, ag⟩ := ts
  simp only at h
  by_cases hs : s = Status.running
  · subst hs
    simp [reject_action_route, reject_action, h]
  · simp [reject_action_route, hs]

/-- C2: approving or rejecting while no PendingAction exists
(`pending_approval = false`) returns a failure response and leaves the
whole task state - status and approval decision flags included -
untouched; conversely, any change the two decision endpoints make to the
decision flags or the status requires `pending_approval = true`. -/
theorem decision_requires_pending :
    (∀ ts : TaskState, ts.agent.pending_approval = false →
       (approve_action_route ts).1.success = false
       ∧ (approve_action_route ts).2 = ts
       ∧ (reject_action_route ts).1.success = false
       ∧ (reject_action_route ts).2 = ts)
    ∧ (∀ ts : TaskState,
        ((approve_action_route ts).2.agent.approved ≠ ts.agent.approved
         ∨ (approve_action_route ts).2.agent.rejected ≠ ts.agent.rejected
         ∨ (approve_action_route ts).2.status ≠ ts.status) →
        ts.agent.pending_approval = true)
    ∧ (∀ ts : TaskState,
        ((reject_action_route ts).2.agent.approved ≠ ts.agent.approved
         ∨ (reject_action_route ts).2.agent.rejected ≠ ts.agent.rejected
         ∨ (reject_action_route ts).2.status ≠ ts.status) →
        ts.agent.pending_approval = true) := by
  refine ⟨?_, ?_, ?_⟩
  · intro ts h
    exact ⟨(approve_route_no_pending ts h).1, (approve_route_no_pending ts h).2,
      (reject_route_no_pending ts h).1, (reject_route_no_pending ts h).2⟩
  · intro ts h
    cases hp : ts.agent.pending_approval with
    | true => rfl
    | false =>
      rw [(approve_route_no_pending ts hp).2] at h
      rcases h with h | h | h <;> exact absurd rfl h
  · intro ts h
    cases hp : ts.agent.pending_approval with
    | true => rfl
    | false =>
      rw [(reject_route_no_pending ts hp).2] at h
      rcases h with h | h | h <;> exact absurd rfl h

/-- C2 witness: the no-pending part of the decision theorem applied to a
concrete running task with no pending action. -/
theorem decision_requires_pending_witness :
    runningTask.agent.pending_approval = false
    ∧ (approve_action_route runningTask).1.success = false
    ∧ (reject_action_route runningTask).2 = runningTask := by
  refine ⟨by decide, ?_, ?_⟩
  · exact (decision_requires_pending.1 runningTask rfl).1
  · exact (decision_requires_pending.1 runningTask rfl).2.2.2

/-- C3 counterexample: the code implements per-batch approval, so with a
batch of three proposed actions there is no second prompt to reject - the
only published prompt carries index 1 of 3 - and rejecting it executes no
action at all: in particular action 1 is never executed, contradicting
the per-action (Policy A) scenario of the claim. -/
theorem batch_reject_counterexample :
    (wrapped_multi_act okExec (applyDecision Decision.reject)
        initialAgentState [10, 20, 30]).executed = []
    ∧ emittedEvents initialAgentState
        (wrapped_multi_act okExec (applyDecision Decision.reject)
          initialAgentState [10, 20, 30]).state
      = [Ev.action_approval_needed 1 3 none, Ev.action_rejected] := by
  decide

/-- C3 amended: given a batch of 3 proposed actions, approval is
per-batch (Policy B): exactly one approval prompt is published, for the
first action with index 1 of 3; rejecting it executes none of the three
actions, and the reject endpoint, invoked while that prompt is pending on
a running task, reports success, records the rejection, and sets the task
status to paused. -/
theorem batch_reject_policyB (execOne : Action → List ActionResult)
    (st : AgentState) (ts : TaskState) (a b c : Action)
    (hrun : ts.status = Status.running)
    (hagent : ts.agent = onActionStartPublish st a 0 3) :
    (wrapped_multi_act execOne (applyDecision Decision.reject) st
        [a, b, c]).executed = []
    ∧ (wrapped_multi_act execOne (applyDecision Decision.reject) st
        [a, b, c]).gateWaits = 1
    ∧ emittedEvents st
        (wrapped_multi_act execOne (applyDecision Decision.reject) st
          [a, b, c]).state
      = [Ev.action_approval_needed 1 3 st.current_batch_next_goal,
         Ev.action_rejected]
    ∧ (reject_action_route ts).1.success = true
    ∧ (reject_action_route ts).2.status = Status.paused
    ∧ (reject_action_route ts).2.agent.rejected = true := by
  refine ⟨rfl, rfl, ?_, ?_, ?_, ?_⟩
  · simp [wrapped_multi_act, onActionStartPublish, applyDecision,
      reject_action, onActionStartResume, emittedEvents,
      List.append_assoc, drop_len_append]
  · simp [reject_action_route, hrun, hagent, reject_action,
      onActionStartPublish]
  · simp [reject_action_route, hrun, hagent, reject_action,
      onActionStartPublish]
  · simp [reject_action_route, hrun, hagent, reject_action,
      onActionStartPublish]

/-- C3 amended witness: the per-batch rejection theorem applied to a
concrete running task whose agent has just published the batch prompt. -/
theorem batch_reject_policyB_witness :
    ({ description := "t", status := Status.running
       agent := onActionStartPublish initialAgentState 10 0 3 } :
        TaskState).status = Status.running
    ∧ (wrapped_multi_act okExec (applyDecision Decision.reject)
        initialAgentState [10, 20, 30]).gateWaits = 1
    ∧ (reject_action_route
        { description := "t", status := Status.running
          agent := onActionStartPublish initialAgentState 10 0 3 }).2.status
      = Status.paused := by
  refine ⟨rfl, ?_, ?_⟩
  · exact (batch_reject_policyB okExec initialAgentState
      { description := "t", status := Status.running
        agent := onActionStartPublish initialAgentState 10 0 3 }
      10 20 30 rfl rfl).2.1
  · exact (batch_reject_policyB okExec initialAgentState
      { description := "t", status := Status.running
        agent := onActionStartPublish initialAgentState 10 0 3 }
      10 20 30 rfl rfl).2.2.2.2.1

/-- C4 counterexample: on rejection `wrapped_multi_act` returns before
its cleanup lines, so `current_batch_next_goal` is NOT cleared to None -
here a rejected one-action batch leaves the goal set even though the
batch has resolved and `pending_approval` is back to false. -/
theorem batch_cleanup_counterexample :
    (wrapped_multi_act okExec (applyDecision Decision.reject)
        goalAgentState [10]).state.current_batch_next_goal = some "g"
    ∧ (wrapped_multi_act okExec (applyDecision Decision.reject)
        goalAgentState [10]).state.pending_approval = false := by
  decide

/-- C4 amended: after a non-empty batch resolves, `pending_approval` is
false in every case, and `current_batch_next_goal` (with
`current_model_output`) is cleared to None when the batch was approved -
including runs cut short by a terminal result - but keeps its previous
value when the batch was rejected. -/
theorem batch_cleanup_amended (execOne : Action → List ActionResult)
    (st : AgentState) (actions : List Action) (h : actions ≠ [])
    (d : Decision) :
    (wrapped_multi_act execOne (applyDecision d) st
        actions).state.pending_approval = false
    ∧ (d = Decision.approve →
        (wrapped_multi_act execOne (applyDecision d) st
            actions).state.current_batch_next_goal = none
        ∧ (wrapped_multi_act execOne (applyDecision d) st
            actions).state.current_model_output = none)
    ∧ (d = Decision.reject →
        (wrapped_multi_act execOne (applyDecision d) st
            actions).state.current_batch_next_goal
          = st.current_batch_next_goal
        ∧ (wrapped_multi_act execOne (applyDecision d) st
            actions).state.current_model_output
          = st.current_model_output) := by
  obtain ⟨a, rest, rfl⟩ : ∃ a rest, actions = a :: rest := by
    cases actions with
    | nil => exact absurd rfl h
    | cons a rest => exact ⟨a, rest, rfl⟩
  cases d with
  | approve =>
    refine ⟨rfl, fun _ => ⟨rfl, rfl⟩, fun hc => ?_⟩
    exact absurd hc (by decide)
  | reject =>
    refine ⟨rfl, fun hc => ?_, fun _ => ⟨rfl, rfl⟩⟩
    exact absurd hc (by decide)

/-- C4 amended witness: the cleanup theorem applied to a concrete
approved one-action batch. -/
theorem batch_cleanup_amended_witness :
    ([10] : List Action) ≠ []
    ∧ (wrapped_multi_act okExec (applyDecision Decision.approve)
        goalAgentState [10]).state.pending_approval = false
    ∧ (wrapped_multi_act okExec (applyDecision Decision.approve)
        goalAgentState [10]).state.current_batch_next_goal = none := by
  refine ⟨by decide, ?_, ?_⟩
  · exact (batch_cleanup_amended okExec goalAgentState [10] (by decide)
      Decision.approve).1
  · exact ((batch_cleanup_amended okExec goalAgentState [10] (by decide)
      Decision.approve).2.1 rfl).1

/-- C5 counterexample: a run that hits the 60 second timeout produces a
task state identical to one whose engine raised an ordinary exception
with empty text, because `str(asyncio.TimeoutError())` is empty and
`_run_agent_task` records the generic `Task execution failed:` message -
so the recorded failure event is not distinguishable from an ordinary
engine error. -/
theorem timeout_event_counterexample :
    run_agent_task openaiEnv true RunOutcome.timeout w0 freshTask
      = run_agent_task openaiEnv true (RunOutcome.engineError "") w0 freshTask
    ∧ (run_agent_task openaiEnv true RunOutcome.timeout w0
        freshTask).2.status = Status.failed := by
  decide

/-- C5 amended: when the engine run exceeds the 60 second wall-clock
bound, the run is aborted and the task status becomes failed - it does
not hang - with an error event recorded; but that event carries only the
generic message `Task execution failed:` followed by the empty
stringification of the TimeoutError, identical to the record of an
ordinary engine error with empty text, so it is not timeout-specific. -/
theorem timeout_fails_with_generic_event (env : Env) (c : LLMChoice)
    (w : World) (ts : TaskState) (h : selectLLM env = Except.ok c) :
    (run_agent_task env true RunOutcome.timeout w ts).2.status = Status.failed
    ∧ (run_agent_task env true RunOutcome.timeout w ts).2.agent.events
        = ts.agent.events ++ [Ev.error "Task execution failed: "]
    ∧ run_agent_task env true RunOutcome.timeout w ts
        = run_agent_task env true (RunOutcome.engineError "") w ts := by
  have he : ("Task execution failed: " ++ "" : String)
      = "Task execution failed: " := by decide
  refine ⟨?_, ?_, ?_⟩
  · simp [run_agent_task, agentStart, h, runExcText, agentStop]
  · simp [run_agent_task, agentStart, h, runExcText, agentStop, he]
  · simp [run_agent_task, agentStart, h, runExcText, agentStop]

/-- C5 amended witness: the timeout theorem applied to a concrete
credentialled environment and fresh task. -/
theorem timeout_fails_with_generic_event_witness :
    selectLLM openaiEnv = Except.ok LLMChoice.openai
    ∧ (run_agent_task openaiEnv true RunOutcome.timeout w0
        freshTask).2.status = Status.failed := by
  refine ⟨rfl, ?_⟩
  exact (timeout_fails_with_generic_event openaiEnv LLMChoice.openai w0
    freshTask rfl).1

/-- C6: stopping a task already in a terminal state returns its current
status with no error and no state change; stopping a non-terminal task
returns stopped without error, and a second stop returns stopped again
with no error and no further change. -/
theorem stop_task_idempotent :
    (∀ (w : World) (ts : TaskState),
      ts.status = Status.stopped ∨ ts.status = Status.completed ∨
          ts.status = Status.failed →
        stop_task w ts
          = (Except.ok { status := ts.status
                         message := "Task was already inactive." }, w, ts))
    ∧ (∀ (w : World) (ts : TaskState),
        ts.status ≠ Status.stopped → ts.status ≠ Status.completed →
          ts.status ≠ Status.failed →
        (stop_task w ts).1
          = Except.ok { status := Status.stopped
                        message := "Task stopped successfully." }
        ∧ (stop_task w ts).2.2.status = Status.stopped
        ∧ (stop_task (stop_task w ts).2.1 (stop_task w ts).2.2).1
            = Except.ok { status := Status.stopped
                          message := "Task was already inactive." }
        ∧ (stop_task (stop_task w ts).2.1 (stop_task w ts).2.2).2.2
            = (stop_task w ts).2.2) := by
  constructor
  · intro w ts h
    simp [stop_task, h]
  · intro w ts h1 h2 h3
    have hn : ¬(ts.status = Status.stopped ∨ ts.status = Status.completed ∨
        ts.status = Status.failed) := by
      rintro (h | h | h)
      · exact h1 h
      · exact h2 h
      · exact h3 h
    refine ⟨?_, ?_, ?_, ?_⟩ <;> simp [stop_task, hn]

/-- C6 witness: the stop theorem applied to a concrete running task and
to the same task already stopped. -/
theorem stop_task_idempotent_witness :
    (stop_task w0 runningTask).1
      = Except.ok { status := Status.stopped
                    message := "Task stopped successfully." }
    ∧ (stop_task (stop_task w0 runningTask).2.1
        (stop_task w0 runningTask).2.2).1
      = Except.ok { status := Status.stopped
                    message := "Task was already inactive." } := by
  refine ⟨?_, ?_⟩
  · exact (stop_task_idempotent.2 w0 runningTask (by decide) (by decide)
      (by decide)).1
  · exact (stop_task_idempotent.2 w0 runningTask (by decide) (by decide)
      (by decide)).2.2.1

/-- C7: the free-text plan parser maps a text with an explicit
`Next Steps: 1. a 2. b` section to a structured plan whose next-steps
list is exactly `a`, `b`; the header is matched case-insensitively (all
three spellings parse identically); and numbered items take precedence in
step extraction - a numbered item swallows a following bullet line
instead of yielding a bullet step. -/
theorem parse_next_steps_round_trip :
    (parse_planner_text "Next Steps: 1. a 2. b".toList).next_steps
      = ["a".toList, "b".toList]
    ∧ (parse_planner_text "NEXT STEPS: 1. a 2. b".toList).next_steps
      = ["a".toList, "b".toList]
    ∧ (parse_planner_text "next STEPS: 1. a 2. b".toList).next_steps
      = ["a".toList, "b".toList]
    ∧ extract_steps "1. a\n- b".toList = ["a\n- b".toList] := by
  decide

/-- C8 counterexample: with neither credential profile satisfied, task
creation still reports success - the caller receives a created status and
no configuration error - and the missing-credential failure only
materialises later, when the background run fails the task.  This
contradicts the claim that the configuration error is fatal at
task-creation and reported to the creating caller. -/
theorem missing_creds_counterexample :
    create_task "t"
      = Except.ok
          ({ status := Status.created
             message := "Task created and initiated successfully." },
           freshTask)
    ∧ (run_agent_task noCredEnv true RunOutcome.success w0
        freshTask).2.status = Status.failed := by
  exact ⟨rfl, by decide⟩

/-- C8 amended: when neither credential profile is satisfied, task
creation itself succeeds and reports a created status to the caller; the
configuration error is raised at the start of the background run, the
task then transitions to failed with the credential error recorded as an
event, and the execution engine is never constructed. -/
theorem missing_creds_fail_in_background (env : Env) (desc : String)
    (bavail : Bool) (run : RunOutcome) (w : World) (ts : TaskState)
    (h1 : (envTruthy env.azureEndpoint && envTruthy env.azureOpenaiApiKey)
        = false)
    (h2 : envTruthy env.openaiApiKey = false) :
    selectLLM env = Except.error missingCredsMsg
    ∧ (∃ info ts0, create_task desc = Except.ok (info, ts0)
        ∧ info.status = Status.created)
    ∧ (agentStart env bavail run w ts.agent).1.engineConstructed = false
    ∧ (agentStart env bavail run w ts.agent).1.exc = some missingCredsMsg
    ∧ (run_agent_task env bavail run w ts).2.status = Status.failed
    ∧ (run_agent_task env bavail run w ts).2.agent.events
        = ts.agent.events
            ++ [Ev.error ("Task execution failed: " ++ missingCredsMsg)] := by
  have hsel : selectLLM env = Except.error missingCredsMsg := by
    simp [selectLLM, h1, h2]
  refine ⟨hsel, ⟨_, _, rfl, rfl⟩, ?_, ?_, ?_, ?_⟩
  · simp [agentStart, hsel]
  · simp [agentStart, hsel]
  · simp [run_agent_task, agentStart, hsel, agentStop]
  · simp [run_agent_task, agentStart, hsel, agentStop]

/-- C8 amended witness: the background-failure theorem applied to the
concrete credential-free environment. -/
theorem missing_creds_fail_in_background_witness :
    (envTruthy noCredEnv.azureEndpoint
        && envTruthy noCredEnv.azureOpenaiApiKey) = false
    ∧ envTruthy noCredEnv.openaiApiKey = false
    ∧ (agentStart noCredEnv true RunOutcome.success w0
        freshTask.agent).1.engineConstructed = false
    ∧ (run_agent_task noCredEnv true RunOutcome.success w0
        freshTask).2.status = Status.failed := by
  refine ⟨by decide, by decide, ?_, ?_⟩
  · exact (missing_creds_fail_in_background noCredEnv "t" true
      RunOutcome.success w0 freshTask (by decide) (by decide)).2.2.1
  · exact (missing_creds_fail_in_background noCredEnv "t" true
      RunOutcome.success w0 freshTask (by decide) (by decide)).2.2.2.2.1

/-- C9: stopping never touches the shared browser singleton.
`BrowserAgent.stop` leaves the world unchanged and only clears the
agent's own references (its engine and browser fields become None),
leaving every other agent field - including the event log and the
approval state - intact; the stop endpoint likewise preserves the world,
as does the `finally` teardown of `agentStart`. -/
theorem stop_preserves_shared_browser (w : World) (st : AgentState)
    (ts : TaskState) (env : Env) (bavail : Bool) (run : RunOutcome) :
    (agentStop w st).1 = w
    ∧ (agentStop w st).2.agentRef = false
    ∧ (agentStop w st).2.browserRef = false
    ∧ (agentStop w st).2.events = st.events
    ∧ (agentStop w st).2.pending_approval = st.pending_approval
    ∧ (agentStop w st).2.current_batch_next_goal = st.current_batch_next_goal
    ∧ (agentStop w st).2.current_actions = st.current_actions
    ∧ (stop_task w ts).2.1 = w
    ∧ (agentStart env bavail run w st).2.1 = w := by
  refine ⟨rfl, rfl, rfl, rfl, rfl, rfl, rfl, ?_, ?_⟩
  · by_cases h : ts.status = Status.stopped ∨ ts.status = Status.completed ∨
        ts.status = Status.failed
    · simp [stop_task, h]
    · simp [stop_task, h, agentStop]
  · cases hsel : selectLLM env with
    | error m => simp [agentStart, hsel, agentStop]
    | ok c =>
      by_cases hb : bavail
      · simp [agentStart, hsel, hb, agentStop]
      · simp [agentStart, hsel, hb, agentStop]

end BrowserAgentModel
